import Mathlib

/-!
Verification development for the claims-management backend.

The repository has two layers:
* `manager.py` + `entities.py`: an in-memory `ClaimsManager` keeping three
  Python dicts of dataclass records, all failures raised as `ValueError`
  or `AttributeError`;
* `app.py`: a Flask/SQLAlchemy API with per-field validators, three ORM
  models (with `cascade="all, delete-orphan"` relationships), and route
  handlers raising `ValidationError` / `ResourceNotFoundError` /
  `DatabaseError` (rolled back on failure by `safe_commit` / explicit
  `db.session.rollback()`).

Embedding conventions:
* Python dicts keyed by id strings become association lists wrapped in
  `Store` (unique keys in every reachable state; `set` replaces the first
  matching entry, mirroring in-place mutation of the stored object).
* Calendar dates are embedded as integers (`Int`) ordered as dates are;
  the `YYYY-MM-DD` string parsing of `validate_date` is orthogonal to
  every claim and is elided (handlers receive parsed dates).
* Python floats / SQL numerics used in ordering comparisons are embedded
  as rationals (`ℚ`); `decimal.Decimal` values produced by
  `validate_amount` are embedded exactly as `DecNum` (integer mantissa
  and count of fractional digits, the digits of the literal preserved).
* In-place mutation with a mid-loop raise (manager updates) is embedded
  by returning the post-state together with an optional error, so a
  partially applied update is observable exactly as in the source.
-/

namespace RenderBackend

/-- Association-list store standing for a Python dict keyed by id strings. -/
structure Store (α : Type) where
  entries : List (String × α)
deriving DecidableEq

def Store.empty {α : Type} : Store α := ⟨[]⟩

def Store.lookup {α : Type} (s : Store α) (k : String) : Option α :=
  List.lookup k s.entries

/-- `k in d` on a Python dict. -/
def Store.containsKey {α : Type} (s : Store α) (k : String) : Bool :=
  (s.lookup k).isSome

/-- `d[k] = v` for a fresh key: Python dicts append new keys in insertion order. -/
def Store.insert {α : Type} (s : Store α) (k : String) (v : α) : Store α :=
  ⟨s.entries ++ [(k, v)]⟩

def setEntries {α : Type} (k : String) (v : α) : List (String × α) → List (String × α)
  | [] => []
  | (k', v') :: t => if k' = k then (k, v) :: t else (k', v') :: setEntries k v t

/-- Overwrite the value stored at `k` (in-place mutation of the stored object). -/
def Store.set {α : Type} (s : Store α) (k : String) (v : α) : Store α :=
  ⟨setEntries k v s.entries⟩

/-- `del d[k]` on a Python dict. -/
def Store.erase {α : Type} (s : Store α) (k : String) : Store α :=
  ⟨s.entries.filter (fun p => p.1 ≠ k)⟩

/-- `any(pred(v) for v in d.values())`. -/
def Store.anyValue {α : Type} (s : Store α) (pred : α → Bool) : Bool :=
  s.entries.any (fun p => pred p.2)

/-- Keep only the values satisfying `pred` (used for ORM cascade deletes). -/
def Store.filterValues {α : Type} (s : Store α) (pred : α → Bool) : Store α :=
  ⟨s.entries.filter (fun p => pred p.2)⟩

/-- Entity record from `entities.py` (`@dataclass Policyholder`). -/
structure Policyholder where
  policyholder_id : String
  name : String
  contact_info : String
deriving DecidableEq

/-- Entity record from `entities.py` (`@dataclass Policy`); dates as `Int`,
the float `coverage_amount` as `ℚ`. -/
structure Policy where
  policy_id : String
  policy_type : String
  coverage_amount : ℚ
  start_date : Int
  end_date : Int
  policyholder_id : String
deriving DecidableEq

/-- Entity record from `entities.py` (`@dataclass Claim`). -/
structure Claim where
  claim_id : String
  description : String
  amount : ℚ
  date : Int
  status : String
  policy_id : String
deriving DecidableEq

/-- Exceptions raised by `manager.py` (`ValueError` / `AttributeError`). -/
inductive PyErr where
  | valueError (msg : String)
  | attributeError (msg : String)
deriving DecidableEq

/-- The three dicts of `ClaimsManager.__init__`. -/
structure ClaimsManager where
  policyholders : Store Policyholder
  policies : Store Policy
  claims : Store Claim
deriving DecidableEq

def ClaimsManager.empty : ClaimsManager :=
  ⟨Store.empty, Store.empty, Store.empty⟩

/-- `ClaimsManager.create_policyholder`: duplicate-id check, then insert.
Returns the post-state and the raised exception, if any. -/
def ClaimsManager.create_policyholder (m : ClaimsManager) (ph : Policyholder) :
    ClaimsManager × Option PyErr :=
  if m.policyholders.containsKey ph.policyholder_id then
    (m, some (.valueError "Policyholder ID already exists"))
  else
    ({ m with policyholders := m.policyholders.insert ph.policyholder_id ph }, none)

/-- `ClaimsManager.get_policyholder`: `dict.get`, returning `None` when absent. -/
def ClaimsManager.get_policyholder (m : ClaimsManager) (policyholder_id : String) :
    Option Policyholder :=
  m.policyholders.lookup policyholder_id

/-- `ClaimsManager.delete_policyholder`: not-found check, dependent-policy
check, then `del`. -/
def ClaimsManager.delete_policyholder (m : ClaimsManager) (policyholder_id : String) :
    ClaimsManager × Option PyErr :=
  if ¬ m.policyholders.containsKey policyholder_id then
    (m, some (.valueError "Policyholder not found"))
  else if m.policies.anyValue (fun p => p.policyholder_id = policyholder_id) then
    (m, some (.valueError "Policyholder has existing policies"))
  else
    ({ m with policyholders := m.policyholders.erase policyholder_id }, none)

/-- `ClaimsManager.create_policy`: duplicate-id, policyholder-exists and
`start_date > end_date` checks, then insert. -/
def ClaimsManager.create_policy (m : ClaimsManager) (policy : Policy) :
    ClaimsManager × Option PyErr :=
  if m.policies.containsKey policy.policy_id then
    (m, some (.valueError "Policy ID already exists"))
  else if ¬ m.policyholders.containsKey policy.policyholder_id then
    (m, some (.valueError "Policyholder does not exist"))
  else if policy.start_date > policy.end_date then
    (m, some (.valueError "Invalid policy dates"))
  else
    ({ m with policies := m.policies.insert policy.policy_id policy }, none)

/-- `ClaimsManager.get_policy`. -/
def ClaimsManager.get_policy (m : ClaimsManager) (policy_id : String) : Option Policy :=
  m.policies.lookup policy_id

/-- `ClaimsManager.delete_policy`: not-found check, dependent-claim check,
then `del`. -/
def ClaimsManager.delete_policy (m : ClaimsManager) (policy_id : String) :
    ClaimsManager × Option PyErr :=
  if ¬ m.policies.containsKey policy_id then
    (m, some (.valueError "Policy not found"))
  else if m.claims.anyValue (fun c => c.policy_id = policy_id) then
    (m, some (.valueError "Policy has existing claims"))
  else
    ({ m with policies := m.policies.erase policy_id }, none)

/-- `ClaimsManager.create_claim`: duplicate-id, policy-exists,
amount-vs-coverage and date-in-period checks, then insert. -/
def ClaimsManager.create_claim (m : ClaimsManager) (claim : Claim) :
    ClaimsManager × Option PyErr :=
  if m.claims.containsKey claim.claim_id then
    (m, some (.valueError "Claim ID already exists"))
  else
    match m.policies.lookup claim.policy_id with
    | none => (m, some (.valueError "Policy does not exist"))
    | some policy =>
      if claim.amount > policy.coverage_amount then
        (m, some (.valueError "Claim exceeds policy coverage"))
      else if claim.date < policy.start_date ∨ claim.date > policy.end_date then
        (m, some (.valueError "Claim date outside policy period"))
      else
        ({ m with claims := m.claims.insert claim.claim_id claim }, none)

/-- `ClaimsManager.get_claim`. -/
def ClaimsManager.get_claim (m : ClaimsManager) (claim_id : String) : Option Claim :=
  m.claims.lookup claim_id

/-- One `key=value` keyword argument of `update_policyholder`; `unknownField k`
stands for any key `k` that is not an attribute of the dataclass. -/
inductive PolicyholderKwarg where
  | policyholder_id (v : String)
  | name (v : String)
  | contact_info (v : String)
  | unknownField (k : String)
deriving DecidableEq

/-- `hasattr(ph, key)` on a `Policyholder` dataclass instance. -/
def PolicyholderKwarg.hasattrPH : PolicyholderKwarg → Bool
  | .unknownField _ => false
  | _ => true

/-- The key string of the kwarg, as interpolated into the error message. -/
def PolicyholderKwarg.keyName : PolicyholderKwarg → String
  | .policyholder_id _ => "policyholder_id"
  | .name _ => "name"
  | .contact_info _ => "contact_info"
  | .unknownField k => k

/-- `setattr(ph, key, value)` for a known attribute. -/
def Policyholder.setattrPH (ph : Policyholder) : PolicyholderKwarg → Policyholder
  | .policyholder_id v => { ph with policyholder_id := v }
  | .name v => { ph with name := v }
  | .contact_info v => { ph with contact_info := v }
  | .unknownField _ => ph

/-- The for-loop of `update_policyholder`: apply kwargs in order, stopping
with `AttributeError` at the first unknown key; attributes set before the
raise stay set (in-place mutation). -/
def applyPHKwargs (ph : Policyholder) :
    List PolicyholderKwarg → Policyholder × Option PyErr
  | [] => (ph, none)
  | k :: rest =>
    if k.hasattrPH then applyPHKwargs (ph.setattrPH k) rest
    else (ph, some (.attributeError ("Invalid field: " ++ k.keyName)))

/-- `ClaimsManager.update_policyholder`: not-found check, then the setattr
loop; the (possibly partially) mutated record is what the dict holds
afterwards, whether or not an exception was raised. -/
def ClaimsManager.update_policyholder (m : ClaimsManager) (policyholder_id : String)
    (kwargs : List PolicyholderKwarg) : ClaimsManager × Option PyErr :=
  match m.policyholders.lookup policyholder_id with
  | none => (m, some (.valueError "Policyholder not found"))
  | some ph =>
    let r := applyPHKwargs ph kwargs
    ({ m with policyholders := m.policyholders.set policyholder_id r.1 }, r.2)

/-- One keyword argument of `update_policy`. -/
inductive PolicyKwarg where
  | policy_id (v : String)
  | policy_type (v : String)
  | coverage_amount (v : ℚ)
  | start_date (v : Int)
  | end_date (v : Int)
  | policyholder_id (v : String)
  | unknownField (k : String)
deriving DecidableEq

/-- `hasattr(policy, key)`. -/
def PolicyKwarg.hasattrPol : PolicyKwarg → Bool
  | .unknownField _ => false
  | _ => true

def PolicyKwarg.keyName : PolicyKwarg → String
  | .policy_id _ => "policy_id"
  | .policy_type _ => "policy_type"
  | .coverage_amount _ => "coverage_amount"
  | .start_date _ => "start_date"
  | .end_date _ => "end_date"
  | .policyholder_id _ => "policyholder_id"
  | .unknownField k => k

/-- `setattr(policy, key, value)`. -/
def Policy.setattrPol (p : Policy) : PolicyKwarg → Policy
  | .policy_id v => { p with policy_id := v }
  | .policy_type v => { p with policy_type := v }
  | .coverage_amount v => { p with coverage_amount := v }
  | .start_date v => { p with start_date := v }
  | .end_date v => { p with end_date := v }
  | .policyholder_id v => { p with policyholder_id := v }
  | .unknownField _ => p

/-- The for-loop of `update_policy` (no re-validation of any invariant). -/
def applyPolicyKwargs (p : Policy) : List PolicyKwarg → Policy × Option PyErr
  | [] => (p, none)
  | k :: rest =>
    if k.hasattrPol then applyPolicyKwargs (p.setattrPol k) rest
    else (p, some (.attributeError ("Invalid field: " ++ k.keyName)))

/-- `ClaimsManager.update_policy`: not-found check, then the setattr loop. -/
def ClaimsManager.update_policy (m : ClaimsManager) (policy_id : String)
    (kwargs : List PolicyKwarg) : ClaimsManager × Option PyErr :=
  match m.policies.lookup policy_id with
  | none => (m, some (.valueError "Policy not found"))
  | some p =>
    let r := applyPolicyKwargs p kwargs
    ({ m with policies := m.policies.set policy_id r.1 }, r.2)

/-- One keyword argument of `update_claim`. -/
inductive ClaimKwarg where
  | claim_id (v : String)
  | description (v : String)
  | amount (v : ℚ)
  | date (v : Int)
  | status (v : String)
  | policy_id (v : String)
  | unknownField (k : String)
deriving DecidableEq

/-- `hasattr(claim, key)`. -/
def ClaimKwarg.hasattrCl : ClaimKwarg → Bool
  | .unknownField _ => false
  | _ => true

def ClaimKwarg.keyName : ClaimKwarg → String
  | .claim_id _ => "claim_id"
  | .description _ => "description"
  | .amount _ => "amount"
  | .date _ => "date"
  | .status _ => "status"
  | .policy_id _ => "policy_id"
  | .unknownField k => k

/-- `setattr(claim, key, value)`. -/
def Claim.setattrCl (c : Claim) : ClaimKwarg → Claim
  | .claim_id v => { c with claim_id := v }
  | .description v => { c with description := v }
  | .amount v => { c with amount := v }
  | .date v => { c with date := v }
  | .status v => { c with status := v }
  | .policy_id v => { c with policy_id := v }
  | .unknownField _ => c

/-- The for-loop of `update_claim` (no re-validation of any invariant). -/
def applyClaimKwargs (c : Claim) : List ClaimKwarg → Claim × Option PyErr
  | [] => (c, none)
  | k :: rest =>
    if k.hasattrCl then applyClaimKwargs (c.setattrCl k) rest
    else (c, some (.attributeError ("Invalid field: " ++ k.keyName)))

/-- `ClaimsManager.update_claim`: not-found check, then the setattr loop. -/
def ClaimsManager.update_claim (m : ClaimsManager) (claim_id : String)
    (kwargs : List ClaimKwarg) : ClaimsManager × Option PyErr :=
  match m.claims.lookup claim_id with
  | none => (m, some (.valueError "Claim not found"))
  | some c =>
    let r := applyClaimKwargs c kwargs
    ({ m with claims := m.claims.set claim_id r.1 }, r.2)

/-- `ClaimsManager.delete_claim`: not-found check, then `del`. -/
def ClaimsManager.delete_claim (m : ClaimsManager) (claim_id : String) :
    ClaimsManager × Option PyErr :=
  if ¬ m.claims.containsKey claim_id then
    (m, some (.valueError "Claim not found"))
  else
    ({ m with claims := m.claims.erase claim_id }, none)

/-- Exceptions of `app.py`: `ValidationError` (400), `ResourceNotFoundError`
(404), `DatabaseError` (500), and any other exception (500 internal). -/
inductive AppError where
  | validation (msg : String)
  | notFound (msg : String)
  | database (msg : String)
  | internal (msg : String)
deriving DecidableEq

/-- A finite `decimal.Decimal` value as produced by `Decimal(str(x))`:
integer mantissa and number of fractional digits of the literal
(value = mant / 10 ^ fexp); the literal's digits are preserved, nothing
is quantized. -/
structure DecNum where
  mant : Int
  fexp : Nat
deriving DecidableEq

/-- The exact rational value of a `DecNum`. -/
def DecNum.toRat (d : DecNum) : ℚ :=
  (d.mant : ℚ) / ((10 : ℚ) ^ d.fexp)

/-- A JSON payload value fed to `validate_amount`: either one whose
`str()` parses as a finite decimal literal, or one raising
`InvalidOperation`/`ValueError`/`TypeError` inside `Decimal(str(x))`. -/
inductive PyNum where
  | num (d : DecNum)
  | nonNumeric
deriving DecidableEq

/-- `validate_string_field(value, field_name, max_length)`. -/
def validate_string_field (value : String) (field_name : String) (max_length : Nat) :
    Except AppError String :=
  if value = "" then
    .error (.validation (field_name ++ " must be a non-empty string"))
  else if value.length > max_length then
    .error (.validation (field_name ++ " must not exceed the maximum length"))
  else
    .ok value

def isEmailLocalChar (c : Char) : Bool :=
  c.isAlpha || c.isDigit || c = '.' || c = '_' || c = '%' || c = '+' || c = '-'

def isEmailDomainChar (c : Char) : Bool :=
  c.isAlpha || c.isDigit || c = '.' || c = '-'

/-- Split a character list at every occurrence of `c` (like
`str.split(c)`, so `n` separators yield `n + 1` chunks). -/
def splitOnChar (c : Char) : List Char → List (List Char)
  | [] => [[]]
  | x :: xs =>
    if x = c then [] :: splitOnChar c xs
    else
      match splitOnChar c xs with
      | [] => [[x]]
      | h :: t => (x :: h) :: t

/-- Re-join chunks with the separator `c` (inverse of `splitOnChar`). -/
def joinWithChar (c : Char) : List (List Char) → List Char
  | [] => []
  | [x] => x
  | x :: xs => x ++ c :: joinWithChar c xs

/-- The anchored regex of `validate_email`:
`^[a-zA-Z0-9._%+-]+@[a-zA-Z0-9.-]+\.[a-zA-Z]{2,}$`. The string matches
iff it has exactly one `@`, a non-empty local part over the local class,
and a domain that splits at its last dot into a non-empty body over the
domain class and a TLD of at least two ASCII letters (the TLD class has
no dot, so the last dot is the only possible split point). -/
def emailMatches (s : String) : Bool :=
  match splitOnChar '@' s.toList with
  | [lpart, domain] =>
    decide (lpart ≠ []) && lpart.all isEmailLocalChar &&
      (match splitOnChar '.' domain with
       | [] => false
       | [_] => false
       | parts =>
         let tld := parts.getLastD []
         let body := joinWithChar '.' parts.dropLast
         decide (body ≠ []) && body.all isEmailDomainChar &&
           decide (2 ≤ tld.length) && tld.all Char.isAlpha)
  | _ => false

/-- `validate_email(email)`. -/
def validate_email (email : String) : Except AppError String :=
  if emailMatches email then .ok email
  else .error (.validation "Invalid email format")

/-- `validate_amount(amount)`: `Decimal(str(amount))`, then the
non-negativity check; the decimal is returned exactly as parsed. -/
def validate_amount : PyNum → Except AppError DecNum
  | .nonNumeric => .error (.validation "Amount must be a valid number")
  | .num d =>
    if d.mant < 0 then .error (.validation "Amount must be non-negative")
    else .ok d

/-- `validate_date_range(start_date, end_date)`: rejects `start >= end`. -/
def validate_date_range (start_date end_date : Int) : Except AppError Unit :=
  if start_date ≥ end_date then
    .error (.validation "End date must be after start date")
  else
    .ok ()

/-- `validate_status(status)`: membership in the three-value enum. -/
def validate_status (status : String) : Except AppError String :=
  if status = "Pending" ∨ status = "Approved" ∨ status = "Rejected" then .ok status
  else .error (.validation "Status must be one of: Pending, Approved, Rejected")

/-- The three ORM tables of `app.py` (same record shapes; `Numeric` amounts
as `ℚ`, `Date` columns as `Int`). -/
structure AppDB where
  policyholders : Store Policyholder
  policies : Store Policy
  claims : Store Claim
deriving DecidableEq

def AppDB.empty : AppDB := ⟨Store.empty, Store.empty, Store.empty⟩

/-- POST /policyholders payload with all required fields present. -/
structure PolicyholderReq where
  policyholder_id : String
  name : String
  contact_info : String
deriving DecidableEq

/-- `Policyholder.validate_input(data)`. -/
def phValidateInput (r : PolicyholderReq) : Except AppError PolicyholderReq := do
  let _ ← validate_string_field r.policyholder_id "Policyholder ID" 50
  let _ ← validate_string_field r.name "Name" 100
  let _ ← validate_email r.contact_info
  pure r

/-- `create_policyholder` route: validate payload first, then the
duplicate-id check (raised as `ValidationError`), then insert and commit. -/
def app_create_policyholder (db : AppDB) (r : PolicyholderReq) :
    AppDB × Except AppError Policyholder :=
  match phValidateInput r with
  | .error e => (db, .error e)
  | .ok v =>
    if db.policyholders.containsKey v.policyholder_id then
      (db, .error (.validation "Policyholder ID already exists"))
    else
      let ph : Policyholder := ⟨v.policyholder_id, v.name, v.contact_info⟩
      ({ db with policyholders := db.policyholders.insert ph.policyholder_id ph },
       .ok ph)

/-- `get_policyholder` route: 404 when absent, else the jsonified fields
(a value-level snapshot of the row). -/
def app_get_policyholder (db : AppDB) (policyholder_id : String) :
    AppDB × Except AppError Policyholder :=
  match db.policyholders.lookup policyholder_id with
  | none => (db, .error (.notFound "Policyholder not found"))
  | some ph => (db, .ok ph)

/-- `delete_policyholder` route: 404 when absent; otherwise
`db.session.delete(ph)` with the declared `cascade="all, delete-orphan"`
relationships removes the policyholder, all its policies, and all claims
of those policies. -/
def app_delete_policyholder (db : AppDB) (policyholder_id : String) :
    AppDB × Except AppError String :=
  match db.policyholders.lookup policyholder_id with
  | none => (db, .error (.notFound "Policyholder not found"))
  | some _ =>
    ({ policyholders := db.policyholders.erase policyholder_id,
       policies := db.policies.filterValues
         (fun p => p.policyholder_id ≠ policyholder_id),
       claims := db.claims.filterValues
         (fun c => ¬ (db.policies.anyValue
           (fun p => p.policyholder_id = policyholder_id ∧ p.policy_id = c.policy_id))) },
     .ok "Policyholder deleted successfully")

/-- POST /policies payload (dates already parsed by `validate_date`). -/
structure PolicyReq where
  policy_id : String
  policy_type : String
  coverage_amount : PyNum
  start_date : Int
  end_date : Int
  policyholder_id : String
deriving DecidableEq

/-- `validated_data` after `Policy.validate_input` succeeded. -/
structure ValidPolicy where
  policy_id : String
  policy_type : String
  coverage_amount : DecNum
  start_date : Int
  end_date : Int
  policyholder_id : String
deriving DecidableEq

/-- `Policy.validate_input(data)`. -/
def policyValidateInput (r : PolicyReq) : Except AppError ValidPolicy := do
  let _ ← validate_string_field r.policy_id "Policy ID" 50
  let _ ← validate_string_field r.policy_type "Policy Type" 100
  let _ ← validate_string_field r.policyholder_id "Policyholder ID" 50
  let amt ← validate_amount r.coverage_amount
  let _ ← validate_date_range r.start_date r.end_date
  pure ⟨r.policy_id, r.policy_type, amt, r.start_date, r.end_date, r.policyholder_id⟩

/-- `create_policy` route: validate payload, duplicate-id check
(`ValidationError`), policyholder-exists check (404), insert, commit. -/
def app_create_policy (db : AppDB) (r : PolicyReq) : AppDB × Except AppError Policy :=
  match policyValidateInput r with
  | .error e => (db, .error e)
  | .ok v =>
    if db.policies.containsKey v.policy_id then
      (db, .error (.validation "Policy ID already exists"))
    else if ¬ db.policyholders.containsKey v.policyholder_id then
      (db, .error (.notFound "Policyholder not found"))
    else
      let p : Policy := ⟨v.policy_id, v.policy_type, v.coverage_amount.toRat,
        v.start_date, v.end_date, v.policyholder_id⟩
      ({ db with policies := db.policies.insert p.policy_id p }, .ok p)

/-- `get_policy` route. -/
def app_get_policy (db : AppDB) (policy_id : String) : AppDB × Except AppError Policy :=
  match db.policies.lookup policy_id with
  | none => (db, .error (.notFound "Policy not found"))
  | some p => (db, .ok p)

/-- `delete_policy` route: 404 when absent; otherwise the ORM cascade
removes the policy together with all its claims. -/
def app_delete_policy (db : AppDB) (policy_id : String) :
    AppDB × Except AppError String :=
  match db.policies.lookup policy_id with
  | none => (db, .error (.notFound "Policy not found"))
  | some _ =>
    ({ db with
        policies := db.policies.erase policy_id,
        claims := db.claims.filterValues (fun c => c.policy_id ≠ policy_id) },
     .ok "Policy deleted successfully")

/-- PUT /policies payload: the optional known fields the handler reads;
`otherKeys` are any further keys of the JSON object, which the handler
never inspects. -/
structure PolicyPatch where
  policy_type : Option String
  coverage_amount : Option PyNum
  start_date : Option Int
  end_date : Option Int
  otherKeys : List String
deriving DecidableEq

/-- The try-block of `update_policy`: defaults the untouched date endpoint
to the stored value, validates the range, validates the provided fields,
and builds the mutated row. -/
def updatePolicyCore (policy : Policy) (p : PolicyPatch) : Except AppError Policy := do
  let start_date := p.start_date.getD policy.start_date
  let end_date := p.end_date.getD policy.end_date
  let _ ← validate_date_range start_date end_date
  let ptype ← match p.policy_type with
    | none => pure policy.policy_type
    | some s => validate_string_field s "Policy Type" 100
  let cov ← match p.coverage_amount with
    | none => pure policy.coverage_amount
    | some n => do
      let d ← validate_amount n
      pure d.toRat
  pure { policy with policy_type := ptype, coverage_amount := cov,
                     start_date := start_date, end_date := end_date }

/-- `update_policy` route: 404 when absent; on any exception in the
try-block the session is rolled back, so the table is unchanged. -/
def app_update_policy (db : AppDB) (policy_id : String) (p : PolicyPatch) :
    AppDB × Except AppError Policy :=
  match db.policies.lookup policy_id with
  | none => (db, .error (.notFound "Policy not found"))
  | some policy =>
    match updatePolicyCore policy p with
    | .error e => (db, .error e)
    | .ok p2 => ({ db with policies := db.policies.set policy_id p2 }, .ok p2)

/-- POST /claims payload (`status` optional, defaulted to "Pending"). -/
structure ClaimReq where
  claim_id : String
  description : String
  amount : PyNum
  date : Int
  status : Option String
  policy_id : String
deriving DecidableEq

/-- `validated_data` after `Claim.validate_input` succeeded. -/
structure ValidClaim where
  claim_id : String
  description : String
  amount : DecNum
  date : Int
  status : String
  policy_id : String
deriving DecidableEq

/-- `Claim.validate_input(data)`. -/
def claimValidateInput (r : ClaimReq) : Except AppError ValidClaim := do
  let _ ← validate_string_field r.claim_id "Claim ID" 50
  let _ ← validate_string_field r.description "Description" 1000
  let _ ← validate_string_field r.policy_id "Policy ID" 50
  let amt ← validate_amount r.amount
  let st ← validate_status (r.status.getD "Pending")
  pure ⟨r.claim_id, r.description, amt, r.date, st, r.policy_id⟩

/-- `create_claim` route: validate payload, duplicate-id check
(`ValidationError`), policy-exists check (404), amount-vs-coverage check;
no check that the claim date lies in the policy period. -/
def app_create_claim (db : AppDB) (r : ClaimReq) : AppDB × Except AppError Claim :=
  match claimValidateInput r with
  | .error e => (db, .error e)
  | .ok v =>
    if db.claims.containsKey v.claim_id then
      (db, .error (.validation "Claim ID already exists"))
    else
      match db.policies.lookup v.policy_id with
      | none => (db, .error (.notFound "Policy not found"))
      | some policy =>
        if v.amount.toRat > policy.coverage_amount then
          (db, .error (.validation "Claim amount exceeds policy coverage"))
        else
          let c : Claim := ⟨v.claim_id, v.description, v.amount.toRat, v.date,
            v.status, v.policy_id⟩
          ({ db with claims := db.claims.insert c.claim_id c }, .ok c)

/-- `get_claim` route. -/
def app_get_claim (db : AppDB) (claim_id : String) : AppDB × Except AppError Claim :=
  match db.claims.lookup claim_id with
  | none => (db, .error (.notFound "Claim not found"))
  | some c => (db, .ok c)

/-- PUT /claims payload: optional known fields; `otherKeys` are any
further JSON keys, never inspected by the handler. -/
structure ClaimPatch where
  description : Option String
  amount : Option PyNum
  date : Option Int
  status : Option String
  otherKeys : List String
deriving DecidableEq

/-- The try-block of `update_claim`: validates each provided field in the
handler's fixed order; a provided amount is re-checked against the
referenced policy's current coverage. A missing referenced policy would
crash on `policy.coverage_amount` (500 internal). -/
def updateClaimCore (db : AppDB) (claim : Claim) (p : ClaimPatch) :
    Except AppError Claim := do
  let desc ← match p.description with
    | none => pure claim.description
    | some s => validate_string_field s "Description" 1000
  let amt ← match p.amount with
    | none => pure claim.amount
    | some n => do
      let d ← validate_amount n
      match db.policies.lookup claim.policy_id with
      | none => Except.error (.internal "NoneType has no attribute coverage_amount")
      | some policy =>
        if d.toRat > policy.coverage_amount then
          Except.error (.validation "Claim amount exceeds policy coverage")
        else
          pure d.toRat
  let dt := p.date.getD claim.date
  let st ← match p.status with
    | none => pure claim.status
    | some s => validate_status s
  pure { claim with description := desc, amount := amt, date := dt, status := st }

/-- `update_claim` route: 404 when absent; rollback on any exception in
the try-block, so the table is unchanged on failure. -/
def app_update_claim (db : AppDB) (claim_id : String) (p : ClaimPatch) :
    AppDB × Except AppError Claim :=
  match db.claims.lookup claim_id with
  | none => (db, .error (.notFound "Claim not found"))
  | some claim =>
    match updateClaimCore db claim p with
    | .error e => (db, .error e)
    | .ok c2 => ({ db with claims := db.claims.set claim_id c2 }, .ok c2)

/-- `delete_claim` route. -/
def app_delete_claim (db : AppDB) (claim_id : String) :
    AppDB × Except AppError String :=
  match db.claims.lookup claim_id with
  | none => (db, .error (.notFound "Claim not found"))
  | some _ =>
    ({ db with claims := db.claims.erase claim_id }, .ok "Claim deleted successfully")

/-- PUT /policyholders payload: optional known fields; `otherKeys` are any
further JSON keys, never inspected by the handler. -/
structure PolicyholderPatch where
  name : Option String
  contact_info : Option String
  otherKeys : List String
deriving DecidableEq

/-- The try-block of `update_policyholder`: validates `name` and
`contact_info` when provided; any other key of the payload is ignored. -/
def updatePHCore (ph : Policyholder) (p : PolicyholderPatch) :
    Except AppError Policyholder := do
  let nm ← match p.name with
    | none => pure ph.name
    | some s => validate_string_field s "Name" 100
  let ci ← match p.contact_info with
    | none => pure ph.contact_info
    | some s => validate_email s
  pure { ph with name := nm, contact_info := ci }

/-- `update_policyholder` route: 404 when absent; rollback on failure. -/
def app_update_policyholder (db : AppDB) (policyholder_id : String)
    (p : PolicyholderPatch) : AppDB × Except AppError Policyholder :=
  match db.policyholders.lookup policyholder_id with
  | none => (db, .error (.notFound "Policyholder not found"))
  | some ph =>
    match updatePHCore ph p with
    | .error e => (db, .error e)
    | .ok ph2 =>
      ({ db with policyholders := db.policyholders.set policyholder_id ph2 }, .ok ph2)

/-! ### Concrete fixtures (the scenario of `tests.py` §8) -/

def phA : Policyholder := ⟨"ph1", "Alice", "alice@email.com"⟩

def polA : Policy := ⟨"p1", "Home", 100000, 20240101, 20250101, "ph1"⟩

def clA : Claim := ⟨"c1", "Fire Damage", 50000, 20240601, "Pending", "p1"⟩

/-- Manager state holding only `phA`. -/
def mgrPH : ClaimsManager := ⟨⟨[("ph1", phA)]⟩, ⟨[]⟩, ⟨[]⟩⟩

/-- Manager state holding `phA` and `polA`. -/
def mgrPol : ClaimsManager := ⟨⟨[("ph1", phA)]⟩, ⟨[("p1", polA)]⟩, ⟨[]⟩⟩

/-- Manager state holding `phA`, `polA` and `clA`. -/
def mgrFull : ClaimsManager := ⟨⟨[("ph1", phA)]⟩, ⟨[("p1", polA)]⟩, ⟨[("c1", clA)]⟩⟩

/-- API database holding only `phA`. -/
def dbPH : AppDB := ⟨⟨[("ph1", phA)]⟩, ⟨[]⟩, ⟨[]⟩⟩

/-- API database holding `phA` and `polA`. -/
def dbPol : AppDB := ⟨⟨[("ph1", phA)]⟩, ⟨[("p1", polA)]⟩, ⟨[]⟩⟩

/-- API database holding `phA`, `polA` and `clA`. -/
def dbFull : AppDB := ⟨⟨[("ph1", phA)]⟩, ⟨[("p1", polA)]⟩, ⟨[("c1", clA)]⟩⟩

/-- POST /claims request mirroring `clA`. -/
def reqClA : ClaimReq := ⟨"c1", "Fire Damage", .num ⟨50000, 0⟩, 20240601, none, "p1"⟩

/-- `reqClA` after `Claim.validate_input`. -/
def validClA : ValidClaim := ⟨"c1", "Fire Damage", ⟨50000, 0⟩, 20240601, "Pending", "p1"⟩

/-- The ORM row `Claim(**validated_data)` built by the `create_claim` route. -/
def mkClaim (v : ValidClaim) : Claim :=
  ⟨v.claim_id, v.description, v.amount.toRat, v.date, v.status, v.policy_id⟩

/-- The ORM row `Policy(**validated_data)` built by the `create_policy` route. -/
def mkPolicy (v : ValidPolicy) : Policy :=
  ⟨v.policy_id, v.policy_type, v.coverage_amount.toRat, v.start_date, v.end_date,
   v.policyholder_id⟩

/-- All-`None` PUT /policies payload. -/
def patchPolNone : PolicyPatch := ⟨none, none, none, none, []⟩

/-- All-`None` PUT /claims payload. -/
def patchClNone : ClaimPatch := ⟨none, none, none, none, []⟩

/-- A policy whose start and end date coincide. -/
def polEq : Policy := ⟨"p2", "Home", 100000, 20240101, 20240101, "ph1"⟩

/-- A policy with reversed dates. -/
def polRev : Policy := ⟨"p3", "Home", 100000, 20250101, 20240101, "ph1"⟩

/-- POST /policies payload with coinciding dates. -/
def reqPolEq : PolicyReq := ⟨"p2", "Home", .num ⟨100000, 0⟩, 20240101, 20240101, "ph1"⟩

/-- POST /policies payload mirroring `polA`. -/
def reqPolA : PolicyReq := ⟨"p1", "Home", .num ⟨100000, 0⟩, 20240101, 20250101, "ph1"⟩

/-- `reqPolA` after `Policy.validate_input`. -/
def validPolA : ValidPolicy := ⟨"p1", "Home", ⟨100000, 0⟩, 20240101, 20250101, "ph1"⟩

/-- POST /policyholders payload mirroring `phA`. -/
def reqPHA : PolicyholderReq := ⟨"ph1", "Alice", "alice@email.com"⟩

/-- POST /policyholders payload with a malformed email. -/
def reqPHBad : PolicyholderReq := ⟨"ph1", "Bob", "not-an-email"⟩

/-! ### Claim C1 -/

/-- Claim C1: with the referenced policy stored, the claim id fresh and the
claim date inside the policy period, `ClaimsManager.create_claim` stores the
claim when its amount is at most the policy's coverage and fails (state
unchanged) when the amount exceeds the coverage; the API `create_claim`
behaves the same on a validated payload (it has no date precondition). -/
theorem C1_claim_amount_gate
    (m : ClaimsManager) (p : Policy) (c : Claim)
    (hp : m.policies.lookup c.policy_id = some p)
    (hfresh : m.claims.lookup c.claim_id = none)
    (hd1 : p.start_date ≤ c.date) (hd2 : c.date ≤ p.end_date)
    (db : AppDB) (q : Policy) (r : ClaimReq) (v : ValidClaim)
    (hv : claimValidateInput r = .ok v)
    (hq : db.policies.lookup v.policy_id = some q)
    (hfresh2 : db.claims.lookup v.claim_id = none) :
    (c.amount ≤ p.coverage_amount →
      m.create_claim c = ({ m with claims := m.claims.insert c.claim_id c }, none)) ∧
    (c.amount > p.coverage_amount →
      m.create_claim c = (m, some (.valueError "Claim exceeds policy coverage"))) ∧
    (v.amount.toRat ≤ q.coverage_amount →
      app_create_claim db r =
        ({ db with claims := db.claims.insert v.claim_id (mkClaim v) }, .ok (mkClaim v))) ∧
    (v.amount.toRat > q.coverage_amount →
      app_create_claim db r = (db, .error (.validation "Claim amount exceeds policy coverage"))) := by
  refine ⟨fun hle => ?_, fun hgt => ?_, fun hle => ?_, fun hgt => ?_⟩
  · simp [ClaimsManager.create_claim, Store.containsKey, hfresh, hp,
      not_lt.mpr hle, not_lt.mpr hd1, not_lt.mpr hd2]
  · simp [ClaimsManager.create_claim, Store.containsKey, hfresh, hp, hgt]
  · simp [app_create_claim, mkClaim, hv, Store.containsKey, hfresh2, hq, not_lt.mpr hle]
  · simp [app_create_claim, hv, Store.containsKey, hfresh2, hq, hgt]

/-- Witness for C1 at the stored policy `polA` (coverage 100000) and the
50000-amount claim `clA`, on both layers. -/
theorem C1_claim_amount_gate_witness :
    (clA.amount ≤ polA.coverage_amount →
      mgrPol.create_claim clA =
        ({ mgrPol with claims := mgrPol.claims.insert clA.claim_id clA }, none)) ∧
    (clA.amount > polA.coverage_amount →
      mgrPol.create_claim clA = (mgrPol, some (.valueError "Claim exceeds policy coverage"))) ∧
    (validClA.amount.toRat ≤ polA.coverage_amount →
      app_create_claim dbPol reqClA =
        ({ dbPol with claims := dbPol.claims.insert validClA.claim_id (mkClaim validClA) },
         .ok (mkClaim validClA))) ∧
    (validClA.amount.toRat > polA.coverage_amount →
      app_create_claim dbPol reqClA =
        (dbPol, .error (.validation "Claim amount exceeds policy coverage"))) :=
  C1_claim_amount_gate mgrPol polA clA (by decide) (by decide) (by decide) (by decide)
    dbPol polA reqClA validClA (by rfl) (by decide) (by decide)

/-! ### Claim C10 -/

/-- Claim C10: even with a fresh id, an existing policy and an amount within
coverage, `ClaimsManager.create_claim` rejects a claim dated strictly before
the policy's start date or strictly after its end date, leaving the state
unchanged. -/
theorem C10_claim_date_window
    (m : ClaimsManager) (p : Policy) (c : Claim)
    (hp : m.policies.lookup c.policy_id = some p)
    (hfresh : m.claims.lookup c.claim_id = none)
    (hamt : c.amount ≤ p.coverage_amount)
    (hdate : c.date < p.start_date ∨ c.date > p.end_date) :
    m.create_claim c = (m, some (.valueError "Claim date outside policy period")) := by
  rcases hdate with h | h
  · simp [ClaimsManager.create_claim, Store.containsKey, hfresh, hp, not_lt.mpr hamt, h]
  · simp [ClaimsManager.create_claim, Store.containsKey, hfresh, hp, not_lt.mpr hamt, h]

/-- Witness for C10: a claim dated 2026-01-01 against the 2024-2025 policy
`polA` is rejected although its amount 50000 is within the 100000 coverage. -/
theorem C10_claim_date_window_witness :
    mgrPol.create_claim ⟨"c9", "Flood Damage", 50000, 20260101, "Pending", "p1"⟩ =
      (mgrPol, some (.valueError "Claim date outside policy period")) :=
  C10_claim_date_window mgrPol polA ⟨"c9", "Flood Damage", 50000, 20260101, "Pending", "p1"⟩
    (by decide) (by decide) (by decide) (by decide)

/-! ### Claim C2 -/

/-- Counterexample to claim C2: on the API path, deleting policyholder
"ph1" while its policy "p1" (and that policy's claim "c1") exist does not
fail with Conflict — it succeeds and implicitly cascades, leaving the
database empty. -/
theorem C2_cascade_counterexample :
    app_delete_policyholder dbFull "ph1" =
      (AppDB.empty, .ok "Policyholder deleted successfully") := by
  rfl

/-- Claim C2 as amended: the in-memory `ClaimsManager` enforces strict
referential protection — deleting a policyholder (resp. policy) with
dependent policies (resp. claims) fails with a `ValueError` and leaves the
state unchanged, and succeeds removing exactly that record once no
dependents remain — while the API delete route instead cascades: it
succeeds and afterwards no policy of the deleted policyholder remains. -/
theorem C2_delete_protection_amended :
    (∀ (m : ClaimsManager) (pid : String),
      m.policyholders.containsKey pid = true →
      m.policies.anyValue (fun p => p.policyholder_id = pid) = true →
      m.delete_policyholder pid =
        (m, some (.valueError "Policyholder has existing policies"))) ∧
    (∀ (m : ClaimsManager) (pid : String),
      m.policyholders.containsKey pid = true →
      m.policies.anyValue (fun p => p.policyholder_id = pid) = false →
      m.delete_policyholder pid =
        ({ m with policyholders := m.policyholders.erase pid }, none)) ∧
    (∀ (m : ClaimsManager) (pid : String),
      m.policies.containsKey pid = true →
      m.claims.anyValue (fun c => c.policy_id = pid) = true →
      m.delete_policy pid = (m, some (.valueError "Policy has existing claims"))) ∧
    (∀ (m : ClaimsManager) (pid : String),
      m.policies.containsKey pid = true →
      m.claims.anyValue (fun c => c.policy_id = pid) = false →
      m.delete_policy pid = ({ m with policies := m.policies.erase pid }, none)) ∧
    (∀ (db : AppDB) (pid : String) (ph : Policyholder),
      db.policyholders.lookup pid = some ph →
      (app_delete_policyholder db pid).2 = .ok "Policyholder deleted successfully" ∧
      (app_delete_policyholder db pid).1.policies.anyValue
        (fun p => p.policyholder_id = pid) = false) := by
  refine ⟨?_, ?_, ?_, ?_, ?_⟩
  · intro m pid h1 h2
    simp [ClaimsManager.delete_policyholder, h1, h2]
  · intro m pid h1 h2
    simp [ClaimsManager.delete_policyholder, h1, h2]
  · intro m pid h1 h2
    simp [ClaimsManager.delete_policy, h1, h2]
  · intro m pid h1 h2
    simp [ClaimsManager.delete_policy, h1, h2]
  · intro db pid ph hl
    refine ⟨by simp [app_delete_policyholder, hl], ?_⟩
    simp only [app_delete_policyholder, hl]
    simp [Store.anyValue, Store.filterValues, List.any_eq_true, List.mem_filter]

/-- Witness for C2: blocked and successful deletes on the manager states,
and the cascading API delete on `dbFull`. -/
theorem C2_delete_protection_witness :
    mgrPol.delete_policyholder "ph1" =
      (mgrPol, some (.valueError "Policyholder has existing policies")) ∧
    mgrPH.delete_policyholder "ph1" =
      ({ mgrPH with policyholders := mgrPH.policyholders.erase "ph1" }, none) ∧
    mgrFull.delete_policy "p1" =
      (mgrFull, some (.valueError "Policy has existing claims")) ∧
    mgrPol.delete_policy "p1" =
      ({ mgrPol with policies := mgrPol.policies.erase "p1" }, none) ∧
    (app_delete_policyholder dbFull "ph1").2 = .ok "Policyholder deleted successfully" ∧
    (app_delete_policyholder dbFull "ph1").1.policies.anyValue
      (fun p => p.policyholder_id = "ph1") = false :=
  ⟨C2_delete_protection_amended.1 mgrPol "ph1" (by decide) (by decide),
   C2_delete_protection_amended.2.1 mgrPH "ph1" (by decide) (by decide),
   C2_delete_protection_amended.2.2.1 mgrFull "p1" (by decide) (by decide),
   C2_delete_protection_amended.2.2.2.1 mgrPol "p1" (by decide) (by decide),
   (C2_delete_protection_amended.2.2.2.2 dbFull "ph1" phA (by decide)).1,
   (C2_delete_protection_amended.2.2.2.2 dbFull "ph1" phA (by decide)).2⟩

/-! ### Claim C3 -/

/-- The setattr loop applied to known fields followed by an unknown key:
all preceding fields are applied before the `AttributeError`. -/
theorem applyPHKwargs_partial (pre : List PolicyholderKwarg) (ph : Policyholder)
    (s : String) (rest : List PolicyholderKwarg)
    (hpre : ∀ k ∈ pre, k.hasattrPH = true) :
    applyPHKwargs ph (pre ++ .unknownField s :: rest) =
      (pre.foldl Policyholder.setattrPH ph,
       some (.attributeError ("Invalid field: " ++ s))) := by
  induction pre generalizing ph with
  | nil => simp [applyPHKwargs, PolicyholderKwarg.hasattrPH, PolicyholderKwarg.keyName]
  | cons k t ih =>
    have hk := hpre k (by simp)
    simp only [List.cons_append, applyPHKwargs, hk, if_true, List.foldl_cons]
    exact ih _ (fun x hx => hpre x (by simp [hx]))

/-- Claim-update analogue of `applyPHKwargs_partial`. -/
theorem applyClaimKwargs_partial (pre : List ClaimKwarg) (c : Claim)
    (s : String) (rest : List ClaimKwarg)
    (hpre : ∀ k ∈ pre, k.hasattrCl = true) :
    applyClaimKwargs c (pre ++ .unknownField s :: rest) =
      (pre.foldl Claim.setattrCl c,
       some (.attributeError ("Invalid field: " ++ s))) := by
  induction pre generalizing c with
  | nil => simp [applyClaimKwargs, ClaimKwarg.hasattrCl, ClaimKwarg.keyName]
  | cons k t ih =>
    have hk := hpre k (by simp)
    simp only [List.cons_append, applyClaimKwargs, hk, if_true, List.foldl_cons]
    exact ih _ (fun x hx => hpre x (by simp [hx]))

/-- Counterexample to claim C3: updating policyholder "ph1" with the kwargs
`name="Bob", foo="x"` fails with `AttributeError`, yet the stored record
keeps `name = "Bob"` — the failed operation persisted a partial mutation. -/
theorem C3_partial_update_counterexample :
    mgrPH.update_policyholder "ph1" [.name "Bob", .unknownField "foo"] =
      (⟨⟨[("ph1", ⟨"ph1", "Bob", "alice@email.com"⟩)]⟩, ⟨[]⟩, ⟨[]⟩⟩,
       some (.attributeError "Invalid field: foo")) ∧
    (mgrPH.update_policyholder "ph1" [.name "Bob", .unknownField "foo"]).1 ≠ mgrPH := by
  decide

/-- Claim C3 as amended: the API handlers are atomic — whenever
`update_policy`, `update_claim` or `create_claim` fails, the rollback
leaves the database exactly as before — but the `ClaimsManager` updates
are not: a multi-field update hitting an unknown key raises
`AttributeError` with every earlier field already applied and persisted. -/
theorem C3_atomicity_amended :
    (∀ (m : ClaimsManager) (pid : String) (ph : Policyholder)
       (pre : List PolicyholderKwarg) (s : String) (rest : List PolicyholderKwarg),
      m.policyholders.lookup pid = some ph →
      (∀ k ∈ pre, k.hasattrPH = true) →
      m.update_policyholder pid (pre ++ .unknownField s :: rest) =
        ({ m with policyholders :=
            m.policyholders.set pid (pre.foldl Policyholder.setattrPH ph) },
         some (.attributeError ("Invalid field: " ++ s)))) ∧
    (∀ (m : ClaimsManager) (cid : String) (c : Claim)
       (pre : List ClaimKwarg) (s : String) (rest : List ClaimKwarg),
      m.claims.lookup cid = some c →
      (∀ k ∈ pre, k.hasattrCl = true) →
      m.update_claim cid (pre ++ .unknownField s :: rest) =
        ({ m with claims := m.claims.set cid (pre.foldl Claim.setattrCl c) },
         some (.attributeError ("Invalid field: " ++ s)))) ∧
    (∀ (db : AppDB) (pid : String) (p : PolicyPatch) (e : AppError),
      (app_update_policy db pid p).2 = .error e → (app_update_policy db pid p).1 = db) ∧
    (∀ (db : AppDB) (cid : String) (p : ClaimPatch) (e : AppError),
      (app_update_claim db cid p).2 = .error e → (app_update_claim db cid p).1 = db) ∧
    (∀ (db : AppDB) (r : ClaimReq) (e : AppError),
      (app_create_claim db r).2 = .error e → (app_create_claim db r).1 = db) := by
  refine ⟨?_, ?_, ?_, ?_, ?_⟩
  · intro m pid ph pre s rest hl hpre
    simp [ClaimsManager.update_policyholder, hl, applyPHKwargs_partial pre ph s rest hpre]
  · intro m cid c pre s rest hl hpre
    simp [ClaimsManager.update_claim, hl, applyClaimKwargs_partial pre c s rest hpre]
  · intro db pid p e h
    cases hl : db.policies.lookup pid with
    | none => simp [app_update_policy, hl]
    | some policy =>
      cases hc : updatePolicyCore policy p with
      | error e2 => simp [app_update_policy, hl, hc]
      | ok p2 => exfalso; simp [app_update_policy, hl, hc] at h
  · intro db cid p e h
    cases hl : db.claims.lookup cid with
    | none => simp [app_update_claim, hl]
    | some claim =>
      cases hc : updateClaimCore db claim p with
      | error e2 => simp [app_update_claim, hl, hc]
      | ok c2 => exfalso; simp [app_update_claim, hl, hc] at h
  · intro db r e h
    cases hv : claimValidateInput r with
    | error e2 => simp [app_create_claim, hv]
    | ok v =>
      by_cases hdup : db.claims.containsKey v.claim_id = true
      · simp [app_create_claim, hv, hdup]
      · cases hq : db.policies.lookup v.policy_id with
        | none => simp [app_create_claim, hv, hdup, hq]
        | some policy =>
          by_cases hgt : v.amount.toRat > policy.coverage_amount
          · simp [app_create_claim, hv, hdup, hq, hgt]
          · exfalso; simp [app_create_claim, hv, hdup, hq, hgt] at h

/-- Witness for C3: the partially-applied manager updates on concrete
states, and error-preserving API calls (missing ids, duplicate claim id). -/
theorem C3_atomicity_witness :
    mgrPH.update_policyholder "ph1" [.name "Bob", .unknownField "foo"] =
      ({ mgrPH with policyholders := (mgrPH.policyholders.set "ph1"
          ([PolicyholderKwarg.name "Bob"].foldl Policyholder.setattrPH phA)) },
       some (.attributeError "Invalid field: foo")) ∧
    mgrFull.update_claim "c1" [.status "Approved", .unknownField "bar"] =
      ({ mgrFull with claims := (mgrFull.claims.set "c1"
          ([ClaimKwarg.status "Approved"].foldl Claim.setattrCl clA)) },
       some (.attributeError "Invalid field: bar")) ∧
    (app_update_policy dbPol "nope" patchPolNone).1 = dbPol ∧
    (app_update_claim dbFull "nope" patchClNone).1 = dbFull ∧
    (app_create_claim dbFull reqClA).1 = dbFull :=
  ⟨C3_atomicity_amended.1 mgrPH "ph1" phA [.name "Bob"] "foo" [] (by decide) (by decide),
   C3_atomicity_amended.2.1 mgrFull "c1" clA [.status "Approved"] "bar" [] (by decide)
     (by decide),
   C3_atomicity_amended.2.2.1 dbPol "nope" patchPolNone (.notFound "Policy not found")
     (by rfl),
   C3_atomicity_amended.2.2.2.1 dbFull "nope" patchClNone (.notFound "Claim not found")
     (by rfl),
   C3_atomicity_amended.2.2.2.2 dbFull reqClA (.validation "Claim ID already exists")
     (by rfl)⟩

/-! ### Claim C4 -/

/-- Counterexample to claim C4: `ClaimsManager.create_policy` checks only
`start_date > end_date`, so a policy with `start_date = end_date` is
stored successfully instead of failing with InvalidInput. -/
theorem C4_equal_dates_counterexample :
    polEq.start_date ≥ polEq.end_date ∧
    mgrPH.create_policy polEq =
      ({ mgrPH with policies := mgrPH.policies.insert "p2" polEq }, none) := by
  decide

/-- Claim C4 as amended: the API `create_policy` rejects every payload with
`start_date ≥ end_date` (equality included) with the InvalidInput message
of `validate_date_range`, and succeeds on validated payloads; the
`ClaimsManager` only rejects `start_date > end_date`, so policy creation
with `start_date = end_date` succeeds there. -/
theorem C4_date_range_amended :
    (∀ (db : AppDB) (r : PolicyReq),
      r.start_date ≥ r.end_date →
      validate_string_field r.policy_id "Policy ID" 50 = .ok r.policy_id →
      validate_string_field r.policy_type "Policy Type" 100 = .ok r.policy_type →
      validate_string_field r.policyholder_id "Policyholder ID" 50 = .ok r.policyholder_id →
      (∃ d, validate_amount r.coverage_amount = .ok d) →
      app_create_policy db r = (db, .error (.validation "End date must be after start date"))) ∧
    (∀ (m : ClaimsManager) (p : Policy),
      m.policies.containsKey p.policy_id = false →
      m.policyholders.containsKey p.policyholder_id = true →
      p.start_date > p.end_date →
      m.create_policy p = (m, some (.valueError "Invalid policy dates"))) ∧
    (∀ (m : ClaimsManager) (p : Policy),
      m.policies.containsKey p.policy_id = false →
      m.policyholders.containsKey p.policyholder_id = true →
      p.start_date ≤ p.end_date →
      m.create_policy p = ({ m with policies := m.policies.insert p.policy_id p }, none)) ∧
    (∀ (db : AppDB) (r : PolicyReq) (v : ValidPolicy),
      policyValidateInput r = .ok v →
      db.policies.containsKey v.policy_id = false →
      db.policyholders.containsKey v.policyholder_id = true →
      app_create_policy db r =
        ({ db with policies := db.policies.insert v.policy_id (mkPolicy v) },
         .ok (mkPolicy v))) := by
  refine ⟨?_, ?_, ?_, ?_⟩
  · intro db r hge h1 h2 h3 hd
    obtain ⟨d, hd⟩ := hd
    simp [app_create_policy, policyValidateInput, h1, h2, h3, hd,
      validate_date_range, hge, Bind.bind, Except.bind]
  · intro m p h1 h2 h3
    simp [ClaimsManager.create_policy, h1, h2, h3]
  · intro m p h1 h2 h3
    simp [ClaimsManager.create_policy, h1, h2, not_lt.mpr h3]
  · intro db r v hv h1 h2
    simp [app_create_policy, hv, h1, h2, mkPolicy]

/-- Witness for C4: the API rejects the equal-dates payload, the manager
rejects reversed dates, accepts equal dates, and the API stores the valid
2024-2025 policy. -/
theorem C4_date_range_witness :
    app_create_policy dbPH reqPolEq =
      (dbPH, .error (.validation "End date must be after start date")) ∧
    mgrPH.create_policy polRev = (mgrPH, some (.valueError "Invalid policy dates")) ∧
    mgrPH.create_policy polEq =
      ({ mgrPH with policies := mgrPH.policies.insert polEq.policy_id polEq }, none) ∧
    app_create_policy dbPH reqPolA =
      ({ dbPH with policies := dbPH.policies.insert validPolA.policy_id (mkPolicy validPolA) },
       .ok (mkPolicy validPolA)) :=
  ⟨C4_date_range_amended.1 dbPH reqPolEq (by decide) (by rfl) (by rfl) (by rfl)
     ⟨⟨100000, 0⟩, by rfl⟩,
   C4_date_range_amended.2.1 mgrPH polRev (by decide) (by decide) (by decide),
   C4_date_range_amended.2.2.1 mgrPH polEq (by decide) (by decide) (by decide),
   C4_date_range_amended.2.2.2 dbPH reqPolA validPolA (by rfl) (by decide) (by decide)⟩

/-! ### Claim C5 -/

/-- Replacing the entry at `k` by the value already stored there leaves the
entry list unchanged. -/
theorem setEntries_lookup_self {α : Type} {l : List (String × α)} {k : String} {v : α}
    (h : List.lookup k l = some v) : setEntries k v l = l := by
  induction l with
  | nil => simp [List.lookup] at h
  | cons p t ih =>
    obtain ⟨k', v'⟩ := p
    by_cases hk : k = k'
    · subst hk
      simp [List.lookup] at h
      simp [setEntries, h]
    · have hk' : (k == k') = false := by simp [hk]
      simp [List.lookup, hk'] at h
      simp [setEntries, Ne.symm hk, ih h]

/-- `Store.set` with the value already stored is the identity. -/
theorem Store.set_lookup_self {α : Type} {s : Store α} {k : String} {v : α}
    (h : s.lookup k = some v) : s.set k v = s := by
  obtain ⟨l⟩ := s
  simp only [Store.set, Store.mk.injEq]
  exact setEntries_lookup_self h

/-- Policy-update analogue of `applyPHKwargs_partial`. -/
theorem applyPolicyKwargs_partial (pre : List PolicyKwarg) (p : Policy)
    (s : String) (rest : List PolicyKwarg)
    (hpre : ∀ k ∈ pre, k.hasattrPol = true) :
    applyPolicyKwargs p (pre ++ .unknownField s :: rest) =
      (pre.foldl Policy.setattrPol p,
       some (.attributeError ("Invalid field: " ++ s))) := by
  induction pre generalizing p with
  | nil => simp [applyPolicyKwargs, PolicyKwarg.hasattrPol, PolicyKwarg.keyName]
  | cons k t ih =>
    have hk := hpre k (by simp)
    simp only [List.cons_append, applyPolicyKwargs, hk, if_true, List.foldl_cons]
    exact ih _ (fun x hx => hpre x (by simp [hx]))

/-- Counterexample to claim C5: a PUT /claims request whose only key is the
unknown field `foo` does not fail with InvalidInput — the handler never
looks at unknown keys, commits nothing new, and returns 200 with the
unchanged claim. -/
theorem C5_unknown_field_counterexample :
    app_update_claim dbFull "c1" ⟨none, none, none, none, ["foo"]⟩ = (dbFull, .ok clA) := by
  rfl

/-- Claim C5 as amended: the `ClaimsManager` updates do reject unknown
fields, raising `AttributeError` at the first one (though fields listed
before it are already applied, see C3); the API update handlers instead
silently ignore unknown keys — a request carrying only unknown keys
succeeds and leaves the store unchanged. -/
theorem C5_unknown_fields_amended :
    (∀ (m : ClaimsManager) (pid : String) (ph : Policyholder)
       (pre : List PolicyholderKwarg) (s : String) (rest : List PolicyholderKwarg),
      m.policyholders.lookup pid = some ph →
      (∀ k ∈ pre, k.hasattrPH = true) →
      (m.update_policyholder pid (pre ++ .unknownField s :: rest)).2 =
        some (.attributeError ("Invalid field: " ++ s))) ∧
    (∀ (m : ClaimsManager) (pid : String) (p : Policy)
       (pre : List PolicyKwarg) (s : String) (rest : List PolicyKwarg),
      m.policies.lookup pid = some p →
      (∀ k ∈ pre, k.hasattrPol = true) →
      (m.update_policy pid (pre ++ .unknownField s :: rest)).2 =
        some (.attributeError ("Invalid field: " ++ s))) ∧
    (∀ (m : ClaimsManager) (cid : String) (c : Claim)
       (pre : List ClaimKwarg) (s : String) (rest : List ClaimKwarg),
      m.claims.lookup cid = some c →
      (∀ k ∈ pre, k.hasattrCl = true) →
      (m.update_claim cid (pre ++ .unknownField s :: rest)).2 =
        some (.attributeError ("Invalid field: " ++ s))) ∧
    (∀ (db : AppDB) (pid : String) (ph : Policyholder) (ks : List String),
      db.policyholders.lookup pid = some ph →
      app_update_policyholder db pid ⟨none, none, ks⟩ = (db, .ok ph)) ∧
    (∀ (db : AppDB) (cid : String) (c : Claim) (ks : List String),
      db.claims.lookup cid = some c →
      app_update_claim db cid ⟨none, none, none, none, ks⟩ = (db, .ok c)) ∧
    (∀ (db : AppDB) (pid : String) (p : Policy) (ks : List String),
      db.policies.lookup pid = some p →
      p.start_date < p.end_date →
      app_update_policy db pid ⟨none, none, none, none, ks⟩ = (db, .ok p)) := by
  refine ⟨?_, ?_, ?_, ?_, ?_, ?_⟩
  · intro m pid ph pre s rest hl hpre
    simp [ClaimsManager.update_policyholder, hl, applyPHKwargs_partial pre ph s rest hpre]
  · intro m pid p pre s rest hl hpre
    simp [ClaimsManager.update_policy, hl, applyPolicyKwargs_partial pre p s rest hpre]
  · intro m cid c pre s rest hl hpre
    simp [ClaimsManager.update_claim, hl, applyClaimKwargs_partial pre c s rest hpre]
  · intro db pid ph ks hl
    have hset := Store.set_lookup_self hl
    simp [app_update_policyholder, hl, updatePHCore, hset, pure, Except.pure,
      Bind.bind, Except.bind]
  · intro db cid c ks hl
    have hset := Store.set_lookup_self hl
    simp [app_update_claim, hl, updateClaimCore, hset, pure, Except.pure,
      Bind.bind, Except.bind]
  · intro db pid p ks hl hlt
    have hset := Store.set_lookup_self hl
    simp [app_update_policy, hl, updatePolicyCore, validate_date_range,
      not_le.mpr hlt, hset]

/-- Witness for C5: unknown-field rejections on the three manager updates,
and unknown-key-only API updates succeeding without change. -/
theorem C5_unknown_fields_witness :
    (mgrPH.update_policyholder "ph1"
      ([PolicyholderKwarg.name "Bob"] ++ .unknownField "foo" :: [])).2 =
      some (.attributeError "Invalid field: foo") ∧
    (mgrPol.update_policy "p1" ([] ++ PolicyKwarg.unknownField "zap" :: [])).2 =
      some (.attributeError "Invalid field: zap") ∧
    (mgrFull.update_claim "c1" ([] ++ ClaimKwarg.unknownField "zap" :: [])).2 =
      some (.attributeError "Invalid field: zap") ∧
    app_update_policyholder dbPH "ph1" ⟨none, none, ["x"]⟩ = (dbPH, .ok phA) ∧
    app_update_claim dbFull "c1" ⟨none, none, none, none, ["bar"]⟩ = (dbFull, .ok clA) ∧
    app_update_policy dbPol "p1" ⟨none, none, none, none, ["baz"]⟩ = (dbPol, .ok polA) :=
  ⟨C5_unknown_fields_amended.1 mgrPH "ph1" phA [.name "Bob"] "foo" [] (by decide) (by decide),
   C5_unknown_fields_amended.2.1 mgrPol "p1" polA [] "zap" [] (by decide) (by decide),
   C5_unknown_fields_amended.2.2.1 mgrFull "c1" clA [] "zap" [] (by decide) (by decide),
   C5_unknown_fields_amended.2.2.2.1 dbPH "ph1" phA ["x"] (by decide),
   C5_unknown_fields_amended.2.2.2.2.1 dbFull "c1" clA ["bar"] (by decide),
   C5_unknown_fields_amended.2.2.2.2.2 dbPol "p1" polA ["baz"] (by decide) (by decide)⟩

/-! ### Claim C6 -/

/-- Counterexample to claim C6: `ClaimsManager.update_claim` raises the
stored claim's amount to 200000, far above the referenced policy's
coverage 100000, and succeeds — no invariant is re-checked on update. -/
theorem C6_no_recheck_counterexample :
    (200000 : ℚ) > polA.coverage_amount ∧
    mgrFull.update_claim "c1" [.amount 200000] =
      (⟨⟨[("ph1", phA)]⟩, ⟨[("p1", polA)]⟩,
        ⟨[("c1", ⟨"c1", "Fire Damage", 200000, 20240601, "Pending", "p1"⟩)]⟩⟩, none) := by
  decide

/-- Claim C6 as amended: the API update handlers do re-validate — updating
one endpoint of a policy's date range re-checks `start < end` against the
stored value of the untouched endpoint, and updating a claim's amount
re-checks it against the referenced policy's current coverage, failing
with the state unchanged — but the `ClaimsManager` updates re-validate
nothing: any amount or date value is applied as given. -/
theorem C6_update_revalidation_amended :
    (∀ (db : AppDB) (pid : String) (policy : Policy) (p : PolicyPatch) (s : Int),
      db.policies.lookup pid = some policy →
      p.start_date = some s →
      p.end_date = none →
      s ≥ policy.end_date →
      app_update_policy db pid p =
        (db, .error (.validation "End date must be after start date"))) ∧
    (∀ (db : AppDB) (pid : String) (policy : Policy) (p : PolicyPatch) (e : Int),
      db.policies.lookup pid = some policy →
      p.start_date = none →
      p.end_date = some e →
      policy.start_date ≥ e →
      app_update_policy db pid p =
        (db, .error (.validation "End date must be after start date"))) ∧
    (∀ (db : AppDB) (cid : String) (claim : Claim) (p : ClaimPatch) (d : DecNum)
       (policy : Policy),
      db.claims.lookup cid = some claim →
      p.description = none →
      p.amount = some (.num d) →
      0 ≤ d.mant →
      db.policies.lookup claim.policy_id = some policy →
      d.toRat > policy.coverage_amount →
      app_update_claim db cid p =
        (db, .error (.validation "Claim amount exceeds policy coverage"))) ∧
    (∀ (m : ClaimsManager) (cid : String) (c : Claim) (q : ℚ),
      m.claims.lookup cid = some c →
      m.update_claim cid [.amount q] =
        ({ m with claims := m.claims.set cid { c with amount := q } }, none)) ∧
    (∀ (m : ClaimsManager) (pid : String) (p : Policy) (s : Int),
      m.policies.lookup pid = some p →
      m.update_policy pid [.start_date s] =
        ({ m with policies := m.policies.set pid { p with start_date := s } }, none)) := by
  refine ⟨?_, ?_, ?_, ?_, ?_⟩
  · intro db pid policy p s hl hs he hge
    simp [app_update_policy, hl, updatePolicyCore, hs, he, validate_date_range, hge,
      Bind.bind, Except.bind]
  · intro db pid policy p e hl hs he hge
    simp [app_update_policy, hl, updatePolicyCore, hs, he, validate_date_range, hge,
      Bind.bind, Except.bind]
  · intro db cid claim p d policy hl hd ha hm hq hgt
    simp [app_update_claim, hl, updateClaimCore, hd, ha, validate_amount,
      not_lt.mpr hm, hq, hgt, Bind.bind, Except.bind, pure, Except.pure]
  · intro m cid c q hl
    simp [ClaimsManager.update_claim, hl, applyClaimKwargs, ClaimKwarg.hasattrCl,
      Claim.setattrCl]
  · intro m pid p s hl
    simp [ClaimsManager.update_policy, hl, applyPolicyKwargs, PolicyKwarg.hasattrPol,
      Policy.setattrPol]

/-- Witness for C6: the API rejects a start date moved past the stored end
date, an end date moved before the stored start date, and a claim amount
raised above coverage; the manager accepts the same amount raise and an
arbitrary start-date move. -/
theorem C6_update_revalidation_witness :
    app_update_policy dbPol "p1" ⟨none, none, some 20260101, none, []⟩ =
      (dbPol, .error (.validation "End date must be after start date")) ∧
    app_update_policy dbPol "p1" ⟨none, none, none, some 20230101, []⟩ =
      (dbPol, .error (.validation "End date must be after start date")) ∧
    app_update_claim dbFull "c1" ⟨none, some (.num ⟨200000, 0⟩), none, none, []⟩ =
      (dbFull, .error (.validation "Claim amount exceeds policy coverage")) ∧
    mgrFull.update_claim "c1" [.amount 200000] =
      ({ mgrFull with claims := mgrFull.claims.set "c1" { clA with amount := 200000 } },
       none) ∧
    mgrPol.update_policy "p1" [.start_date 20260101] =
      ({ mgrPol with policies := mgrPol.policies.set "p1" { polA with start_date := 20260101 } },
       none) :=
  ⟨C6_update_revalidation_amended.1 dbPol "p1" polA ⟨none, none, some 20260101, none, []⟩
     20260101 (by decide) (by rfl) (by rfl) (by decide),
   C6_update_revalidation_amended.2.1 dbPol "p1" polA ⟨none, none, none, some 20230101, []⟩
     20230101 (by decide) (by rfl) (by rfl) (by decide),
   C6_update_revalidation_amended.2.2.1 dbFull "c1" clA
     ⟨none, some (.num ⟨200000, 0⟩), none, none, []⟩ ⟨200000, 0⟩ polA
     (by decide) (by rfl) (by rfl) (by decide) (by decide)
     (by norm_num [DecNum.toRat, polA]),
   C6_update_revalidation_amended.2.2.2.1 mgrFull "c1" clA 200000 (by decide),
   C6_update_revalidation_amended.2.2.2.2 mgrPol "p1" polA 20260101 (by decide)⟩

/-! ### Claim C7 -/

/-- Counterexample to claim C7: creating policyholder "ph1" on a valid
payload while "ph1" exists fails with the generic validation category
(`ValidationError` → HTTP 400 "Validation error") on the API and a plain
`ValueError` in the manager — there is no Conflict category anywhere in
the code. -/
theorem C7_duplicate_category_counterexample :
    app_create_policyholder dbPH reqPHA =
      (dbPH, .error (.validation "Policyholder ID already exists")) ∧
    mgrPH.create_policyholder phA =
      (mgrPH, some (.valueError "Policyholder ID already exists")) := by
  exact ⟨by rfl, by decide⟩

/-- Claim C7 as amended: creating any of the three entities with a
duplicate id fails and leaves the store unchanged, but with the generic
validation category (`ValueError` in the manager, `ValidationError`/400 in
the API), not a distinct Conflict category; moreover the API validates the
payload before the duplicate check, so an invalid payload error preempts
the duplicate error. -/
theorem C7_duplicate_id_amended :
    (∀ (m : ClaimsManager) (ph : Policyholder),
      m.policyholders.containsKey ph.policyholder_id = true →
      m.create_policyholder ph = (m, some (.valueError "Policyholder ID already exists"))) ∧
    (∀ (m : ClaimsManager) (p : Policy),
      m.policies.containsKey p.policy_id = true →
      m.create_policy p = (m, some (.valueError "Policy ID already exists"))) ∧
    (∀ (m : ClaimsManager) (c : Claim),
      m.claims.containsKey c.claim_id = true →
      m.create_claim c = (m, some (.valueError "Claim ID already exists"))) ∧
    (∀ (db : AppDB) (r : PolicyholderReq),
      phValidateInput r = .ok r →
      db.policyholders.containsKey r.policyholder_id = true →
      app_create_policyholder db r =
        (db, .error (.validation "Policyholder ID already exists"))) ∧
    (∀ (db : AppDB) (r : PolicyReq) (v : ValidPolicy),
      policyValidateInput r = .ok v →
      db.policies.containsKey v.policy_id = true →
      app_create_policy db r = (db, .error (.validation "Policy ID already exists"))) ∧
    (∀ (db : AppDB) (r : ClaimReq) (v : ValidClaim),
      claimValidateInput r = .ok v →
      db.claims.containsKey v.claim_id = true →
      app_create_claim db r = (db, .error (.validation "Claim ID already exists"))) ∧
    (∀ (db : AppDB) (r : PolicyholderReq) (e : AppError),
      phValidateInput r = .error e →
      app_create_policyholder db r = (db, .error e)) := by
  refine ⟨?_, ?_, ?_, ?_, ?_, ?_, ?_⟩
  · intro m ph h
    simp [ClaimsManager.create_policyholder, h]
  · intro m p h
    simp [ClaimsManager.create_policy, h]
  · intro m c h
    simp [ClaimsManager.create_claim, h]
  · intro db r hv h
    simp [app_create_policyholder, hv, h]
  · intro db r v hv h
    simp [app_create_policy, hv, h]
  · intro db r v hv h
    simp [app_create_claim, hv, h]
  · intro db r e hv
    simp [app_create_policyholder, hv]

/-- Witness for C7: duplicate creates of `phA`, `polA` and `clA` on both
layers, and an invalid-email payload preempting the duplicate check. -/
theorem C7_duplicate_id_witness :
    mgrPH.create_policyholder phA =
      (mgrPH, some (.valueError "Policyholder ID already exists")) ∧
    mgrPol.create_policy polA = (mgrPol, some (.valueError "Policy ID already exists")) ∧
    mgrFull.create_claim clA = (mgrFull, some (.valueError "Claim ID already exists")) ∧
    app_create_policyholder dbPH reqPHA =
      (dbPH, .error (.validation "Policyholder ID already exists")) ∧
    app_create_policy dbPol reqPolA =
      (dbPol, .error (.validation "Policy ID already exists")) ∧
    app_create_claim dbFull reqClA =
      (dbFull, .error (.validation "Claim ID already exists")) ∧
    app_create_policyholder dbPH reqPHBad =
      (dbPH, .error (.validation "Invalid email format")) :=
  ⟨C7_duplicate_id_amended.1 mgrPH phA (by decide),
   C7_duplicate_id_amended.2.1 mgrPol polA (by decide),
   C7_duplicate_id_amended.2.2.1 mgrFull clA (by decide),
   C7_duplicate_id_amended.2.2.2.1 dbPH reqPHA (by rfl) (by decide),
   C7_duplicate_id_amended.2.2.2.2.1 dbPol reqPolA validPolA (by rfl) (by decide),
   C7_duplicate_id_amended.2.2.2.2.2.1 dbFull reqClA validClA (by rfl) (by decide),
   C7_duplicate_id_amended.2.2.2.2.2.2 dbPH reqPHBad (.validation "Invalid email format")
     (by rfl)⟩

/-! ### Claim C8 -/

/-- Counterexample to claim C8: on the empty manager every `get` returns
`None` as an ordinary value — `dict.get` raises nothing, so the lookup
does not fail with NotFound. -/
theorem C8_get_returns_none_counterexample :
    ClaimsManager.empty.get_policyholder "ph1" = none ∧
    ClaimsManager.empty.get_policy "p1" = none ∧
    ClaimsManager.empty.get_claim "c1" = none := by
  decide

/-- Claim C8 as amended: the API GET routes fail with NotFound when the id
is absent and otherwise return the jsonified field values (a value-level
snapshot); the `ClaimsManager` getters are bare `dict.get` calls — they
return `None` without raising when the id is absent, and the stored record
itself (in Python a live mutable reference, not a copy) when present. -/
theorem C8_get_semantics_amended :
    (∀ (db : AppDB) (pid : String),
      db.policyholders.lookup pid = none →
      app_get_policyholder db pid = (db, .error (.notFound "Policyholder not found"))) ∧
    (∀ (db : AppDB) (pid : String) (ph : Policyholder),
      db.policyholders.lookup pid = some ph →
      app_get_policyholder db pid = (db, .ok ph)) ∧
    (∀ (db : AppDB) (pid : String),
      db.policies.lookup pid = none →
      app_get_policy db pid = (db, .error (.notFound "Policy not found"))) ∧
    (∀ (db : AppDB) (pid : String) (p : Policy),
      db.policies.lookup pid = some p →
      app_get_policy db pid = (db, .ok p)) ∧
    (∀ (db : AppDB) (cid : String),
      db.claims.lookup cid = none →
      app_get_claim db cid = (db, .error (.notFound "Claim not found"))) ∧
    (∀ (db : AppDB) (cid : String) (c : Claim),
      db.claims.lookup cid = some c →
      app_get_claim db cid = (db, .ok c)) ∧
    (∀ (m : ClaimsManager) (k : String),
      m.get_policyholder k = m.policyholders.lookup k ∧
      m.get_policy k = m.policies.lookup k ∧
      m.get_claim k = m.claims.lookup k) := by
  refine ⟨?_, ?_, ?_, ?_, ?_, ?_, ?_⟩
  · intro db pid h
    simp [app_get_policyholder, h]
  · intro db pid ph h
    simp [app_get_policyholder, h]
  · intro db pid h
    simp [app_get_policy, h]
  · intro db pid p h
    simp [app_get_policy, h]
  · intro db cid h
    simp [app_get_claim, h]
  · intro db cid c h
    simp [app_get_claim, h]
  · intro m k
    exact ⟨rfl, rfl, rfl⟩

/-- Witness for C8: 404s on absent ids and snapshots on present ids over
the populated database, plus the manager getters as bare lookups. -/
theorem C8_get_semantics_witness :
    app_get_policyholder dbFull "zz" =
      (dbFull, .error (.notFound "Policyholder not found")) ∧
    app_get_policyholder dbFull "ph1" = (dbFull, .ok phA) ∧
    app_get_policy dbFull "zz" = (dbFull, .error (.notFound "Policy not found")) ∧
    app_get_policy dbFull "p1" = (dbFull, .ok polA) ∧
    app_get_claim dbFull "zz" = (dbFull, .error (.notFound "Claim not found")) ∧
    app_get_claim dbFull "c1" = (dbFull, .ok clA) ∧
    (mgrFull.get_policyholder "c1" = mgrFull.policyholders.lookup "c1" ∧
     mgrFull.get_policy "c1" = mgrFull.policies.lookup "c1" ∧
     mgrFull.get_claim "c1" = mgrFull.claims.lookup "c1") :=
  ⟨C8_get_semantics_amended.1 dbFull "zz" (by decide),
   C8_get_semantics_amended.2.1 dbFull "ph1" phA (by decide),
   C8_get_semantics_amended.2.2.1 dbFull "zz" (by decide),
   C8_get_semantics_amended.2.2.2.1 dbFull "p1" polA (by decide),
   C8_get_semantics_amended.2.2.2.2.1 dbFull "zz" (by decide),
   C8_get_semantics_amended.2.2.2.2.2.1 dbFull "c1" clA (by decide),
   C8_get_semantics_amended.2.2.2.2.2.2 mgrFull "c1"⟩

/-! ### Claim C9 -/

/-- Counterexample to claim C9: `validate_amount` on the literal `0.105`
returns the decimal exactly as parsed — three fractional digits, not a
fixed-point value with two — because `Decimal(str(x))` never quantizes. -/
theorem C9_fractional_digits_counterexample :
    validate_amount (.num ⟨105, 3⟩) = .ok ⟨105, 3⟩ ∧
    (⟨105, 3⟩ : DecNum).fexp ≠ 2 := by
  exact ⟨by rfl, by decide⟩

/-- Claim C9 as amended: `validate_amount` coerces through
`Decimal(str(x))`, preserving the input literal's digits unchanged (no
quantization to 2 fractional digits), and fails with InvalidInput exactly
when the value is non-numeric or negative; amounts elsewhere do pass
through binary floats (the dataclass fields and the `float(...)` casts in
every jsonified response). -/
theorem C9_validate_amount_amended (d e : DecNum)
    (hd : 0 ≤ d.mant) (he : e.mant < 0) :
    validate_amount (.num d) = .ok d ∧
    validate_amount (.num e) = .error (.validation "Amount must be non-negative") ∧
    validate_amount .nonNumeric = .error (.validation "Amount must be a valid number") := by
  refine ⟨?_, ?_, rfl⟩
  · simp [validate_amount, not_lt.mpr hd]
  · simp [validate_amount, he]

/-- Witness for C9 at `0.105` (accepted unchanged) and `-0.05` (rejected). -/
theorem C9_validate_amount_witness :
    validate_amount (.num ⟨105, 3⟩) = .ok ⟨105, 3⟩ ∧
    validate_amount (.num ⟨-5, 2⟩) = .error (.validation "Amount must be non-negative") ∧
    validate_amount .nonNumeric = .error (.validation "Amount must be a valid number") :=
  C9_validate_amount_amended ⟨105, 3⟩ ⟨-5, 2⟩ (by decide) (by decide)

end RenderBackend
